import Mathlib

/-!
Verification of the mercari py-crawler core against its specification.

The development shallowly embeds the production modules of
src/py-crawler/src/mercari_crawler (models.py, rate_limiter.py,
auth_manager.py, api_client.py, redis_queue.py, engine.py) as executable
Lean definitions and proves or refutes the frozen claims about them.
Wall-clock readings (time.time(), time.monotonic()) are passed as explicit
arguments; the random generator is passed as an explicit stream of draws;
Redis state is passed as explicit values.
-/

namespace Crawler

/-! ## Decimal codec

Python's str()/int() pair on integers, used by the protojson wire format
(models.py encodes ipId, createdAt, crawledAt with str(), decodes with int()).
A string is modelled by its character list.
-/

/-- Character of a single decimal digit value, as Python renders digits. -/
def digitChar (d : Nat) : Char := Char.ofNat (48 + d)

/-- Digit value of a decimal digit character. -/
def charDigit (c : Char) : Nat := c.toNat - 48

/-- Python str(n) for a natural number: big-endian decimal characters. -/
def natChars (n : Nat) : List Char :=
  if n = 0 then ['0'] else (Nat.digits 10 n).reverse.map digitChar

/-- Python str(i) for an arbitrary int: optional leading minus sign. -/
def intChars (i : Int) : List Char :=
  if i < 0 then '-' :: natChars i.natAbs else natChars i.toNat

/-- Python int(s) on an all-digit string (no sign): left fold of digits. -/
def decNatChars? (l : List Char) : Option Nat :=
  if l ≠ [] ∧ l.all Char.isDigit then
    some (l.foldl (fun a c => a * 10 + charDigit c) 0)
  else none

/-- Python int(s) on a decimal string with an optional leading minus sign. -/
def decIntChars? (l : List Char) : Option Int :=
  match l with
  | [] => none
  | c :: rest =>
    if c = '-' then
      match decNatChars? rest with
      | none => none
      | some n => some (-(n : Int))
    else
      match decNatChars? (c :: rest) with
      | none => none
      | some n => some ((n : Int))

/-- Python str(i) as a Lean string. -/
def pyStr (i : Int) : String := ⟨intChars i⟩

/-! ## Python wire values

Model of the JSON-like Python values exchanged through dicts in models.py:
strings, ints, lists and dicts (association lists with string keys).
-/

inductive PyVal where
  | vStr (s : String)
  | vInt (n : Int)
  | vList (xs : List PyVal)
  | vDict (fields : List (String × PyVal))

/-- Lookup of a key in a dict literal (first match wins; dict keys are unique). -/
def dictGet : List (String × PyVal) → String → Option PyVal
  | [], _ => none
  | (k', v) :: rest, k => if k' = k then some v else dictGet rest k

/-- Python data.get(key, default). -/
def getD (d : List (String × PyVal)) (k : String) (dflt : PyVal) : PyVal :=
  (dictGet d k).getD dflt

/-- Reading a value expected to be a str (plain assignment of a str field). -/
def asStr? : PyVal → Option String
  | .vStr s => some s
  | _ => none

/-- Reading a value expected to be an int (plain assignment of an int field). -/
def asInt? : PyVal → Option Int
  | .vInt n => some n
  | _ => none

/-- Reading a value expected to be a list. -/
def asList? : PyVal → Option (List PyVal)
  | .vList xs => some xs
  | _ => none

/-- Reading a value expected to be a dict. -/
def asDict? : PyVal → Option (List (String × PyVal))
  | .vDict d => some d
  | _ => none

/-- Python int(x): identity on ints, decimal parse on strings, error otherwise. -/
def pyIntConv? : PyVal → Option Int
  | .vInt n => some n
  | .vStr s => decIntChars? s.data
  | _ => none

/-! ## models.py -/

/-- ItemStatus enum from models.py (IntEnum with ON_SALE = 0, SOLD = 1). -/
inductive ItemStatus where
  | onSale
  | sold
deriving DecidableEq

/-- Integer value of an ItemStatus member. -/
def ItemStatus.val : ItemStatus → Int
  | .onSale => 0
  | .sold => 1

/-- The ItemStatus(x) constructor call: raises (none) outside 0 and 1. -/
def ItemStatus.ofInt? : Int → Option ItemStatus
  | 0 => some .onSale
  | 1 => some .sold
  | _ => none

/-- Item dataclass from models.py. -/
structure Item where
  source_id : String
  title : String
  price : Int
  image_url : String
  item_url : String
  status : ItemStatus
deriving DecidableEq

/-- Item.to_dict: camelCase keys, enum encoded by its value. -/
def Item.to_dict (it : Item) : List (String × PyVal) :=
  [("sourceId", .vStr it.source_id),
   ("title", .vStr it.title),
   ("price", .vInt it.price),
   ("imageUrl", .vStr it.image_url),
   ("itemUrl", .vStr it.item_url),
   ("status", .vInt it.status.val)]

/-- Item.from_dict: reads each camelCase key with its default; the
ItemStatus(...) call fails outside 0 and 1. -/
def Item.from_dict (d : List (String × PyVal)) : Option Item := do
  let source_id ← asStr? (getD d "sourceId" (.vStr ""))
  let title ← asStr? (getD d "title" (.vStr ""))
  let price ← asInt? (getD d "price" (.vInt 0))
  let image_url ← asStr? (getD d "imageUrl" (.vStr ""))
  let item_url ← asStr? (getD d "itemUrl" (.vStr ""))
  let statusV ← asInt? (getD d "status" (.vInt 0))
  let status ← ItemStatus.ofInt? statusV
  pure { source_id, title, price, image_url, item_url, status }

/-- CrawlRequest dataclass from models.py. -/
structure CrawlRequest where
  ip_id : Int
  keyword : String
  task_id : String
  created_at : Int
  retry_count : Int := 0
  pages_on_sale : Int := 5
  pages_sold : Int := 5
deriving DecidableEq

/-- CrawlRequest.to_dict: protojson camelCase; ipId and createdAt are
encoded with str() (protobuf renders 64-bit ints as JSON strings). -/
def CrawlRequest.to_dict (r : CrawlRequest) : List (String × PyVal) :=
  [("ipId", .vStr (pyStr r.ip_id)),
   ("keyword", .vStr r.keyword),
   ("taskId", .vStr r.task_id),
   ("createdAt", .vStr (pyStr r.created_at)),
   ("retryCount", .vInt r.retry_count),
   ("pagesOnSale", .vInt r.pages_on_sale),
   ("pagesSold", .vInt r.pages_sold)]

/-- CrawlRequest.from_dict: int(...) conversions on the numeric fields,
defaults 0 / "" / 5 as in models.py. -/
def CrawlRequest.from_dict (d : List (String × PyVal)) : Option CrawlRequest := do
  let ip_id ← pyIntConv? (getD d "ipId" (.vInt 0))
  let keyword ← asStr? (getD d "keyword" (.vStr ""))
  let task_id ← asStr? (getD d "taskId" (.vStr ""))
  let created_at ← pyIntConv? (getD d "createdAt" (.vInt 0))
  let retry_count ← pyIntConv? (getD d "retryCount" (.vInt 0))
  let pages_on_sale ← pyIntConv? (getD d "pagesOnSale" (.vInt 5))
  let pages_sold ← pyIntConv? (getD d "pagesSold" (.vInt 5))
  pure { ip_id, keyword, task_id, created_at, retry_count, pages_on_sale, pages_sold }

/-- CrawlResponse dataclass from models.py. -/
structure CrawlResponse where
  ip_id : Int
  task_id : String
  crawled_at : Int
  items : List Item := []
  total_found : Int := 0
  error_message : String := ""
  pages_crawled : Int := 0
  retry_count : Int := 0
deriving DecidableEq

/-- CrawlResponse.to_dict: always emits the six scalar keys (ipId and
crawledAt via str()); appends the items key only when the items list is
non-empty and the errorMessage key only when the message is non-empty. -/
def CrawlResponse.to_dict (r : CrawlResponse) : List (String × PyVal) :=
  [("ipId", .vStr (pyStr r.ip_id)),
   ("taskId", .vStr r.task_id),
   ("crawledAt", .vStr (pyStr r.crawled_at)),
   ("totalFound", .vInt r.total_found),
   ("pagesCrawled", .vInt r.pages_crawled),
   ("retryCount", .vInt r.retry_count)]
  ++ (if r.items = [] then [] else
    [("items", .vList (r.items.map (fun it => .vDict it.to_dict)))])
  ++ (if r.error_message = "" then [] else
    [("errorMessage", .vStr r.error_message)])

/-- The list comprehension [Item.from_dict(item) for item in items_data]:
left-to-right, any raise propagates. -/
def itemsFromList : List PyVal → Option (List Item)
  | [] => some []
  | v :: rest => do
    let d ← asDict? v
    let it ← Item.from_dict d
    let rest' ← itemsFromList rest
    pure (it :: rest')

/-- CrawlResponse.from_dict: missing items key decodes to the empty list,
missing errorMessage to the empty string; numeric fields through int(...). -/
def CrawlResponse.from_dict (d : List (String × PyVal)) : Option CrawlResponse := do
  let itemsData ← asList? (getD d "items" (.vList []))
  let items ← itemsFromList itemsData
  let ip_id ← pyIntConv? (getD d "ipId" (.vInt 0))
  let task_id ← asStr? (getD d "taskId" (.vStr ""))
  let crawled_at ← pyIntConv? (getD d "crawledAt" (.vInt 0))
  let total_found ← pyIntConv? (getD d "totalFound" (.vInt 0))
  let error_message ← asStr? (getD d "errorMessage" (.vStr ""))
  let pages_crawled ← pyIntConv? (getD d "pagesCrawled" (.vInt 0))
  let retry_count ← pyIntConv? (getD d "retryCount" (.vInt 0))
  pure { ip_id, task_id, crawled_at, items, total_found, error_message,
         pages_crawled, retry_count }

/-- MercariSearchResult dataclass from models.py. -/
structure MercariSearchResult where
  items : List Item
  total_count : Int
  has_next : Bool
  next_page_token : Option String := none
deriving DecidableEq

/-! ## rate_limiter.py

The TOKEN_BUCKET_LUA script, executed atomically by Redis. Lua numbers are
modelled by rationals, the millisecond clock by an integer, and the Redis
hash by two optional fields. The PEXPIRE calls (key TTL) are not modelled.
-/

/-- The animetop:ratelimit:global hash: tokens and ts fields, each possibly
absent. -/
structure Bucket where
  tokens? : Option ℚ := none
  ts? : Option Int := none
deriving DecidableEq

/-- One atomic execution of TOKEN_BUCKET_LUA: returns whether the acquire
was allowed together with the updated hash. When rate ≤ 0 or burst ≤ 0 the
script returns 1 immediately without touching the hash. -/
def tokenBucketScript (rate burst : ℚ) (now : Int) (requested : ℚ)
    (b : Bucket) : Bool × Bucket :=
  if rate ≤ 0 ∨ burst ≤ 0 then (true, b)
  else
    let tokens0 : ℚ := b.tokens?.getD burst
    let ts0 : Int := b.ts?.getD now
    let delta : Int := max 0 (now - ts0)
    let refill : ℚ := ((delta : ℚ) * rate) / 1000
    let tokens1 : ℚ := if 0 < refill then min burst (tokens0 + refill) else tokens0
    let ts1 : Int := if 0 < refill then now else ts0
    if tokens1 < requested then (false, ⟨some tokens1, some ts1⟩)
    else (true, ⟨some (tokens1 - requested), some ts1⟩)

/-- RedisRateLimiter.acquire with tokens=1: runs the script with the
configured rate and burst at the current millisecond clock. -/
def rateLimiterAcquire (rate burst : ℚ) (now : Int) (b : Bucket) : Bool × Bucket :=
  tokenBucketScript rate burst now 1 b

/-- A sequence of acquire(1) calls at the given timestamps (the script is
atomic, so concurrent callers serialize into some such sequence); returns
how many calls returned true and the final hash. -/
def acquireSeq (rate burst : ℚ) : List Int → Bucket → Nat × Bucket
  | [], b => (0, b)
  | now :: rest, b =>
    let (ok, b') := rateLimiterAcquire rate burst now b
    let (n, b'') := acquireSeq rate burst rest b'
    ((if ok then 1 else 0) + n, b'')

/-! ## auth_manager.py

AuthManager state and transitions. The wall clock is an explicit rational
argument; the DPoP generator is identified by its creation time; browser
credential capture is external I/O that does not touch these fields.
-/

/-- AuthMode enum. -/
inductive AuthMode where
  | http
  | browser
deriving DecidableEq

/-- The mutable state of an AuthManager (AuthState dataclass plus the
manager-level _dpop_generator and _cooldown_until fields). Defaults are the
initial state: HTTP mode, zero failures, no generator. -/
structure AuthManagerState where
  mode : AuthMode := .http
  consecutive_failures : Nat := 0
  last_failure_time : ℚ := 0
  total_http_requests : Nat := 0
  total_browser_fallbacks : Nat := 0
  mode_switches : Nat := 0
  cooldown_until : ℚ := 0
  dpop_created_at : Option ℚ := none
deriving DecidableEq

/-- AuthManager.FALLBACK_THRESHOLD. -/
def FALLBACK_THRESHOLD : Nat := 3

/-- AuthManager.RECOVERY_INTERVAL in seconds. -/
def RECOVERY_INTERVAL : ℚ := 300

/-- AuthManager.COOLDOWN_AFTER_403 in seconds. -/
def COOLDOWN_AFTER_403 : ℚ := 60

/-- AuthManager._fallback_to_browser: switch to BROWSER, zero the counter,
bump both counters (the subsequent browser capture is external I/O). -/
def fallbackToBrowser (s : AuthManagerState) : AuthManagerState :=
  { s with
    mode := .browser
    consecutive_failures := 0
    total_browser_fallbacks := s.total_browser_fallbacks + 1
    mode_switches := s.mode_switches + 1 }

/-- AuthManager.on_success. -/
def onSuccess (s : AuthManagerState) : AuthManagerState :=
  { s with
    consecutive_failures := 0
    total_http_requests :=
      if s.mode = .http then s.total_http_requests + 1 else s.total_http_requests }

/-- AuthManager.on_failure(status_code) at wall-clock time now. -/
def onFailure (status : Int) (now : ℚ) (s : AuthManagerState) : AuthManagerState :=
  let s1 : AuthManagerState :=
    { s with
      consecutive_failures := s.consecutive_failures + 1
      last_failure_time := now
      cooldown_until :=
        if status = 403 then now + COOLDOWN_AFTER_403 else s.cooldown_until }
  if s1.mode = .http ∧ FALLBACK_THRESHOLD ≤ s1.consecutive_failures then
    fallbackToBrowser s1
  else s1

/-- AuthManager.try_recover_http_mode at wall-clock time now: returns the
boolean result together with the state after the call. -/
def tryRecoverHttpMode (now : ℚ) (s : AuthManagerState) : Bool × AuthManagerState :=
  if s.mode ≠ .browser then (true, s)
  else if now - s.last_failure_time < RECOVERY_INTERVAL then (false, s)
  else
    (true,
      { s with
        mode := .http
        consecutive_failures := 0
        dpop_created_at := some now
        mode_switches := s.mode_switches + 1 })

/-- Fold of on_failure over a list of (status_code, time) events. -/
def applyFailures : List (Int × ℚ) → AuthManagerState → AuthManagerState
  | [], s => s
  | (st, t) :: rest, s => applyFailures rest (onFailure st t s)

/-! ## api_client.py: fingerprint rotation

The (chrome_version, accept_language) pair and the request counter.
random.choice draws are an explicit stream of pairs, one per rotation.
-/

/-- The fingerprint-relevant fields of MercariAPI. -/
structure FpState where
  request_count : Nat
  chrome_version : Nat
  accept_language : Nat
  draw_idx : Nat
deriving DecidableEq

/-- MercariAPI._fingerprint_rotation_interval. -/
def FINGERPRINT_ROTATION_INTERVAL : Nat := 50

/-- Fingerprint state at construction: counter zero, initial random pair. -/
def initFpState (c a : Nat) : FpState := ⟨0, c, a, 0⟩

/-- MercariAPI._maybe_rotate_fingerprint, the first statement of
_do_search: increments the counter; once it reaches the interval,
_rotate_fingerprint closes the session, draws a fresh pair and zeroes the
counter. It runs on every _do_search call, before the outcome is known. -/
def maybeRotateFingerprint (draws : Nat → Nat × Nat) (s : FpState) : FpState :=
  let c := s.request_count + 1
  if FINGERPRINT_ROTATION_INTERVAL ≤ c then
    { request_count := 0, chrome_version := (draws s.draw_idx).1,
      accept_language := (draws s.draw_idx).2, draw_idx := s.draw_idx + 1 }
  else { s with request_count := c }

/-- Fingerprint state after k calls to _do_search. The fingerprint used by
the k-th call (1-based) is the chrome_version after k steps, since the
rotation check precedes the request. -/
def fpAfterCalls (draws : Nat → Nat × Nat) (s0 : FpState) : Nat → FpState
  | 0 => s0
  | k + 1 => maybeRotateFingerprint draws (fpAfterCalls draws s0 k)

/-! ## api_client.py: search_all_pages and response parsing -/

/-- STATUS_ON_SALE from request_template.py. -/
def STATUS_ON_SALE : String := "STATUS_ON_SALE"

/-- STATUS_SOLD_OUT from request_template.py. -/
def STATUS_SOLD_OUT : String := "STATUS_SOLD_OUT"

/-- Exceptions that a call to MercariAPI.search can raise into
search_all_pages: tenacity RetryError, the MercariAPIError family
(with status code and message), or a transport error (TimeoutError or
ConnectionError re-raised by the retry wrapper, which is configured with
reraise=True). -/
inductive SearchExc where
  | retryExc
  | apiExc (status : Int) (msg : String)
  | transportExc (msg : String)
deriving DecidableEq

/-- Outcome of one search call. -/
inductive SearchOutcome where
  | ok (r : MercariSearchResult)
  | exc (e : SearchExc)

/-- Python truthiness of an optional page token: None and the empty string
are falsy. -/
def tokenTruthy : Option String → Bool
  | none => false
  | some s => !(s = "")

/-- The loop-continuation test of search_all_pages after a successful page:
continue only when has_next and next_page_token are both truthy. -/
def sapContinue (r : MercariSearchResult) : Bool :=
  r.has_next && tokenTruthy r.next_page_token

/-- The page loop of search_all_pages: the search outcome of page i is
given by the oracle; a RetryError breaks the loop keeping what was
accumulated, any other raise propagates. -/
def sapGo (oracle : Nat → SearchOutcome) :
    List Item → Nat → Nat → Nat → Except SearchExc (List Item × Nat)
  | acc, pages, _, 0 => .ok (acc, pages)
  | acc, pages, page, remaining + 1 =>
    match oracle page with
    | .exc .retryExc => .ok (acc, pages)
    | .exc e => .error e
    | .ok r =>
      let acc' := acc ++ r.items
      let pages' := pages + 1
      if sapContinue r then sapGo oracle acc' pages' (page + 1) remaining
      else .ok (acc', pages')

/-- MercariAPI.search_all_pages(keyword, status, max_pages, page_delay):
the keyword, status and delays only feed the oracle. -/
def searchAllPages (oracle : Nat → SearchOutcome) (max_pages : Nat) :
    Except SearchExc (List Item × Nat) :=
  sapGo oracle [] 0 0 max_pages

/-- One raw item dict of the upstream response, with the fields
_parse_response and _get_image_url read. -/
structure RawItem where
  id : String := ""
  name : String := ""
  price : Int := 0
  thumbnails : List String := []
  thumbnail : Option String := none
  imageUrl : Option String := none
deriving DecidableEq

/-- MercariAPI._get_image_url: thumbnails[0] when the list is truthy, else
the thumbnail key when present, else the imageUrl key when present, else
the empty string. -/
def getImageUrl (raw : RawItem) : String :=
  match raw.thumbnails with
  | t :: _ => t
  | [] =>
    match raw.thumbnail with
    | some t => t
    | none =>
      match raw.imageUrl with
      | some u => u
      | none => ""

/-- The body of the upstream JSON response, with the fields
_parse_response reads: the raw items and the meta object's nextPageToken
and numFound entries (each possibly absent). -/
structure RawResponse where
  items : List RawItem := []
  nextPageToken : Option String := none
  numFound : Option Int := none
deriving DecidableEq

/-- MercariAPI._parse_response: items with an empty id are dropped, the
status comes from the calling context, has_next is the truthiness of
nextPageToken, and total_count is meta.numFound with the parsed length as
fallback. -/
def parseResponse (data : RawResponse) (status : String) : MercariSearchResult :=
  let items : List Item := data.items.filterMap (fun raw =>
    let it : Item :=
      { source_id := raw.id, title := raw.name, price := raw.price,
        image_url := getImageUrl raw,
        item_url := "https://jp.mercari.com/item/" ++ raw.id,
        status := if status = STATUS_SOLD_OUT then .sold else .onSale }
    if it.source_id = "" then none else some it)
  { items := items,
    total_count := data.numFound.getD items.length,
    has_next := tokenTruthy data.nextPageToken,
    next_page_token := data.nextPageToken }

/-! ## redis_queue.py -/

/-- The three Redis structures touched by ACK_TASK_SCRIPT: the processing
list, the pending set and the started hash. -/
structure QueueState where
  processing : List String
  pending : Finset String
  started : String → Option Int

/-- The needle the ack script searches for in each processing entry. -/
def needleOf (taskId : String) : String := "\"taskId\":\"" ++ taskId ++ "\""

/-- Whether a processing entry contains the needle as a plain substring
(Lua string.find with plain=true). -/
def entryMatches (taskId : String) (entry : String) : Bool :=
  decide ((needleOf taskId).data <:+: entry.data)

/-- One atomic execution of ACK_TASK_SCRIPT: scan the processing list in
LRANGE order, LREM the first entry containing the needle (removing the
first occurrence of a value whose first occurrence is the found position,
i.e. erase the first matching element), then SREM the dedup key and HDEL
the started entry. Returns the new state and the removal count. -/
def ackTaskScript (st : QueueState) (taskId dedupKey : String) : QueueState × Nat :=
  (⟨st.processing.eraseP (entryMatches taskId),
    st.pending.erase dedupKey,
    fun k => if k = taskId then none else st.started k⟩,
   if st.processing.any (entryMatches taskId) then 1 else 0)

/-- RedisQueue.ack_task: returns immediately when task_id is empty,
otherwise runs the ack script with dedup key "ip:" + str(ip_id). -/
def ackTask (task : CrawlRequest) (st : QueueState) : QueueState :=
  if task.task_id = "" then st
  else (ackTaskScript st task.task_id ("ip:" ++ pyStr task.ip_id)).1

/-! ## engine.py -/

/-- Outcome of one upstream page request as raw data, before parsing. -/
inductive RawOutcome where
  | ok (data : RawResponse)
  | exc (e : SearchExc)

/-- The search outcomes a branch sees: successful responses go through
_parse_response with the branch's status. -/
def oracleOfRaw (status : String) (o : Nat → RawOutcome) : Nat → SearchOutcome :=
  fun i =>
    match o i with
    | .ok d => .ok (parseResponse d status)
    | .exc e => .exc e

/-- Replacing the meta.numFound field of every raw response in an oracle. -/
def setNumFound (f : Nat → Option Int) (o : Nat → RawOutcome) : Nat → RawOutcome :=
  fun i =>
    match o i with
    | .ok d => .ok { d with numFound := f i }
    | .exc e => .exc e

/-- One crawl branch of CrawlerEngine._crawl_items (crawl_on_sale or
crawl_sold): skipped when the page budget is ≤ 0; a MercariAPIError is
caught and rendered as the branch error string; any other exception
propagates. -/
def crawlBranch (label status : String) (o : Nat → RawOutcome) (pages : Int) :
    Except SearchExc (List Item × Nat × String) :=
  if pages ≤ 0 then .ok ([], 0, "")
  else
    match searchAllPages (oracleOfRaw status o) pages.toNat with
    | .ok (items, p) => .ok (items, p, "")
    | .error (.apiExc _ msg) => .ok ([], 0, label ++ ": " ++ msg)
    | .error e => .error e

/-- The "; ".join of the non-empty branch error strings. -/
def joinErrors (e1 e2 : String) : String :=
  if e1 = "" then e2 else if e2 = "" then e1 else e1 ++ "; " ++ e2

/-- CrawlerEngine._crawl_items: run both branches, concatenate their items,
add their page counts, join their error strings; an exception escaping a
branch propagates out of the gather. -/
def crawlItems (task : CrawlRequest) (o1 o2 : Nat → RawOutcome) :
    Except SearchExc (List Item × Nat × String) := do
  let (i1, p1, e1) ← crawlBranch "on_sale" STATUS_ON_SALE o1 task.pages_on_sale
  let (i2, p2, e2) ← crawlBranch "sold" STATUS_SOLD_OUT o2 task.pages_sold
  .ok (i1 ++ i2, p1 + p2, joinErrors e1 e2)

/-- How the try block of CrawlerEngine._process_task ended: the rate-limit
wait timed out (RateLimitExceeded), the crawl completed, or some other
exception was raised and caught by the generic handler (str(e) recorded). -/
inductive RunOutcome where
  | rateLimitTimeout
  | crawled (items : List Item) (pages : Nat) (error : String)
  | raised (msg : String)

/-- The CrawlResponse the engine assigns in each branch of _process_task;
now is int(time.time()) at response construction. -/
def processTaskResponse (task : CrawlRequest) (now : Int) :
    RunOutcome → CrawlResponse
  | .rateLimitTimeout =>
    { ip_id := task.ip_id, task_id := task.task_id, crawled_at := now,
      error_message := "Rate limit timeout", retry_count := task.retry_count }
  | .crawled items pages err =>
    { ip_id := task.ip_id, task_id := task.task_id, crawled_at := now,
      items := items, total_found := (items.length : Int), error_message := err,
      pages_crawled := (pages : Int), retry_count := task.retry_count }
  | .raised msg =>
    { ip_id := task.ip_id, task_id := task.task_id, crawled_at := now,
      error_message := msg, retry_count := task.retry_count }

/-- The response variable as the finally block sees it: some branch of the
try/except always assigned it. -/
def processTaskResponse? (task : CrawlRequest) (now : Int) (o : RunOutcome) :
    Option CrawlResponse :=
  match o with
  | .rateLimitTimeout => some (processTaskResponse task now .rateLimitTimeout)
  | .crawled items pages err => some (processTaskResponse task now (.crawled items pages err))
  | .raised msg => some (processTaskResponse task now (.raised msg))

/-- The queue operations the engine performs for one task. -/
inductive QueueEffect where
  | pushResult (r : CrawlResponse)
  | ack (t : CrawlRequest)
deriving DecidableEq

/-- The finally block of _process_task: push the response when one was
assigned, then ack the task (each attempt is made even if the other
errors; errors there are logged, not raised). -/
def processTaskEffects (task : CrawlRequest) (now : Int) (o : RunOutcome) :
    List QueueEffect :=
  (match processTaskResponse? task now o with
   | some r => [.pushResult r]
   | none => []) ++ [.ack task]

/-- Recognizer for push effects. -/
def QueueEffect.isPush : QueueEffect → Bool
  | .pushResult _ => true
  | .ack _ => false

/-- Recognizer for ack effects. -/
def QueueEffect.isAck : QueueEffect → Bool
  | .pushResult _ => false
  | .ack _ => true

/-- Items accumulated by the first k successful pages of a branch whose
page results are resSeq (page+i). -/
def itemsFrom (resSeq : Nat → MercariSearchResult) (page : Nat) : Nat → List Item
  | 0 => []
  | k + 1 => (resSeq page).items ++ itemsFrom resSeq (page + 1) k

theorem charDigit_digitChar {d : Nat} (h : d < 10) : charDigit (digitChar d) = d := by
  interval_cases d <;> decide

theorem digitChar_isDigit {d : Nat} (h : d < 10) : (digitChar d).isDigit = true := by
  interval_cases d <;> decide

theorem digitChar_ne_minus {d : Nat} (h : d < 10) : digitChar d ≠ '-' := by
  interval_cases d <;> decide

theorem foldl_digits (L : List Nat) (hL : ∀ d ∈ L, d < 10) (acc : Nat) :
    (L.reverse.map digitChar).foldl (fun a c => a * 10 + charDigit c) acc
      = acc * 10 ^ L.length + Nat.ofDigits 10 L := by
  induction L generalizing acc with
  | nil => simp [Nat.ofDigits_nil]
  | cons d L ih =>
    have hd : d < 10 := hL d (List.mem_cons_self d L)
    have hL' : ∀ x ∈ L, x < 10 := fun x hx => hL x (List.mem_cons_of_mem d hx)
    simp only [List.reverse_cons, List.map_append, List.map_cons, List.map_nil,
      List.foldl_append, List.foldl_cons, List.foldl_nil, ih hL', Nat.ofDigits_cons,
      List.length_cons, charDigit_digitChar hd]
    ring

theorem natChars_ne_nil (n : Nat) : natChars n ≠ [] := by
  unfold natChars
  split
  · simp
  · rename_i h
    simp only [ne_eq, List.map_eq_nil_iff, List.reverse_eq_nil_iff]
    exact Nat.digits_ne_nil_iff_ne_zero.mpr h

theorem natChars_all_digit (n : Nat) : (natChars n).all Char.isDigit = true := by
  unfold natChars
  split
  · decide
  · simp only [List.all_eq_true, List.mem_map, List.mem_reverse]
    rintro c ⟨d, hd, rfl⟩
    exact digitChar_isDigit (Nat.digits_lt_base (by norm_num) hd)

theorem decNatChars_natChars (n : Nat) : decNatChars? (natChars n) = some n := by
  rcases Nat.eq_zero_or_pos n with rfl | hn
  · decide
  · unfold decNatChars?
    rw [if_pos ⟨natChars_ne_nil n, natChars_all_digit n⟩]
    unfold natChars
    rw [if_neg (Nat.pos_iff_ne_zero.mp hn)]
    rw [foldl_digits _ (fun d hd => Nat.digits_lt_base (by norm_num) hd) 0]
    simp [Nat.ofDigits_digits]

theorem decIntChars_intChars (i : Int) : decIntChars? (intChars i) = some i := by
  unfold intChars
  split
  · rename_i hneg
    have habs : (-((i.natAbs : Nat) : Int)) = i := by omega
    simp only [decIntChars?, if_pos rfl, decNatChars_natChars, habs]
    simp
  · rename_i hpos
    obtain ⟨c, rest, hcr⟩ : ∃ c rest, natChars i.toNat = c :: rest := by
      cases h : natChars i.toNat with
      | nil => exact absurd h (natChars_ne_nil _)
      | cons c rest => exact ⟨c, rest, rfl⟩
    have hcdig : c.isDigit = true := by
      have := natChars_all_digit i.toNat
      rw [hcr] at this
      simp only [List.all_cons, Bool.and_eq_true] at this
      exact this.1
    have hcne : c ≠ '-' := by
      intro h
      rw [h] at hcdig
      exact absurd hcdig (by decide)
    rw [hcr]
    simp only [decIntChars?, if_neg hcne, ← hcr, decNatChars_natChars]
    congr 1
    omega

theorem pyIntConv_pyStr (i : Int) : pyIntConv? (.vStr (pyStr i)) = some i :=
  decIntChars_intChars i

theorem decIntChars_pyStr (i : Int) : decIntChars? (pyStr i).data = some i :=
  decIntChars_intChars i

theorem item_roundtrip (it : Item) : Item.from_dict it.to_dict = some it := by
  rcases it with ⟨s, t, p, iu, iu', st⟩
  cases st <;> rfl

theorem crawlRequest_roundtrip (r : CrawlRequest) :
    CrawlRequest.from_dict r.to_dict = some r := by
  rcases r with ⟨a, b, c, d, e, f, g⟩
  simp [CrawlRequest.from_dict, CrawlRequest.to_dict, getD, dictGet,
    pyIntConv_pyStr, asStr?, pyIntConv?, decIntChars_pyStr]

theorem itemsFromList_map_to_dict (l : List Item) :
    itemsFromList (l.map (fun it => PyVal.vDict it.to_dict)) = some l := by
  induction l with
  | nil => rfl
  | cons it l ih =>
    simp only [List.map_cons, itemsFromList, asDict?, item_roundtrip, ih,
      Option.bind_eq_bind, Option.some_bind, Option.pure_def]

theorem crawlResponse_roundtrip (r : CrawlResponse) :
    CrawlResponse.from_dict r.to_dict = some r := by
  rcases r with ⟨a, b, c, items, tf, err, pc, rc⟩
  by_cases hi : items = [] <;> by_cases he : err = "" <;>
    simp [CrawlResponse.from_dict, CrawlResponse.to_dict, hi, he, getD, dictGet,
      asStr?, asList?, pyIntConv?, decIntChars_pyStr, itemsFromList_map_to_dict,
      itemsFromList]

/-- C1: for every popped task and every way the try block of
CrawlerEngine._process_task can end (rate-limit wait timeout, completed
crawl, or any exception caught by the generic handler), the cleanup block
performs exactly one push of the built CrawlResponse followed by exactly
one ack of the task. -/
theorem C1_one_push_then_one_ack (task : CrawlRequest) (now : Int) (o : RunOutcome) :
    processTaskEffects task now o
      = [.pushResult (processTaskResponse task now o), .ack task]
    ∧ (processTaskEffects task now o).countP (fun e => e.isPush) = 1
    ∧ (processTaskEffects task now o).countP (fun e => e.isAck) = 1 := by
  have h : processTaskEffects task now o
      = [.pushResult (processTaskResponse task now o), .ack task] := by
    cases o <;> rfl
  refine ⟨h, ?_, ?_⟩ <;> rw [h] <;> rfl

/-- C7: CrawlRequest and CrawlResponse decode back to themselves from
their own encodings; ipId, createdAt and crawledAt are encoded as JSON
strings; an empty items list and an empty error_message are omitted from
the CrawlResponse encoding. -/
theorem C7_wire_roundtrip :
    (∀ r : CrawlRequest, CrawlRequest.from_dict r.to_dict = some r)
    ∧ (∀ r : CrawlResponse, CrawlResponse.from_dict r.to_dict = some r)
    ∧ (∀ r : CrawlRequest,
        dictGet r.to_dict "ipId" = some (.vStr (pyStr r.ip_id))
        ∧ dictGet r.to_dict "createdAt" = some (.vStr (pyStr r.created_at)))
    ∧ (∀ r : CrawlResponse,
        dictGet r.to_dict "ipId" = some (.vStr (pyStr r.ip_id))
        ∧ dictGet r.to_dict "crawledAt" = some (.vStr (pyStr r.crawled_at)))
    ∧ (∀ ip tid ca tf err pc rc,
        dictGet (CrawlResponse.to_dict ⟨ip, tid, ca, [], tf, err, pc, rc⟩) "items" = none)
    ∧ (∀ ip tid ca its tf pc rc,
        dictGet (CrawlResponse.to_dict ⟨ip, tid, ca, its, tf, "", pc, rc⟩)
          "errorMessage" = none) := by
  refine ⟨crawlRequest_roundtrip, crawlResponse_roundtrip,
    fun r => ⟨rfl, rfl⟩, fun r => ⟨rfl, rfl⟩, ?_, ?_⟩
  · intro ip tid ca tf err pc rc
    by_cases he : err = "" <;> simp [CrawlResponse.to_dict, dictGet, he]
  · intro ip tid ca its tf pc rc
    by_cases hi : its = [] <;> simp [CrawlResponse.to_dict, dictGet, hi]

/-- C9: ack_task on a request whose task_id is empty returns before running
the Lua script: the whole queue state is unchanged, and in particular the
dedup key ip:ip_id stays in the pending set. -/
theorem C9_empty_task_id_nop (task : CrawlRequest) (st : QueueState)
    (h : task.task_id = "") :
    ackTask task st = st
    ∧ (("ip:" ++ pyStr task.ip_id) ∈ st.pending →
        ("ip:" ++ pyStr task.ip_id) ∈ (ackTask task st).pending) := by
  have h1 : ackTask task st = st := by simp [ackTask, h]
  exact ⟨h1, fun hm => by rw [h1]; exact hm⟩

/-- Closed instance of C9 at a concrete request and state. -/
theorem C9_empty_task_id_nop_witness :
    ackTask ⟨7, "k", "", 0, 0, 5, 5⟩ ⟨[], {"ip:" ++ pyStr 7}, fun _ => none⟩
        = ⟨[], {"ip:" ++ pyStr 7}, fun _ => none⟩
    ∧ (("ip:" ++ pyStr 7) ∈ ({"ip:" ++ pyStr 7} : Finset String) →
        ("ip:" ++ pyStr 7) ∈
          (ackTask ⟨7, "k", "", 0, 0, 5, 5⟩
            ⟨[], {"ip:" ++ pyStr 7}, fun _ => none⟩).pending) :=
  C9_empty_task_id_nop ⟨7, "k", "", 0, 0, 5, 5⟩
    ⟨[], {"ip:" ++ pyStr 7}, fun _ => none⟩ rfl

/-- C3 counterexample: with burst 1 and rate 0 the Lua script returns 1
unconditionally (the rate ≤ 0 branch), so two acquire(1) calls at time 0
both return true, contradicting the at-most-B bound for B = 1. -/
theorem C3_counterexample :
    ¬ (acquireSeq 0 1 [0, 0] ⟨none, none⟩).1 ≤ 1 := by decide

/-- C3 (amended): for a bucket configured with burst B > 0 and rate 0, the
script short-circuits on rate ≤ 0, so every acquire(1) call in any
serialized sequence returns true and the bucket hash is never touched; the
at-most-B bound does not apply to the rate-0 configuration. -/
theorem C3_rate_zero_disabled (burst : ℚ) (_hb : 0 < burst)
    (times : List Int) (b : Bucket) :
    acquireSeq 0 burst times b = (times.length, b) := by
  induction times with
  | nil => rfl
  | cons t ts ih =>
    simp [acquireSeq, rateLimiterAcquire, tokenBucketScript, le_refl, ih]
    omega

/-- Closed instance of the amended C3 at burst 5 and three calls. -/
theorem C3_rate_zero_disabled_witness :
    acquireSeq 0 5 [1, 2, 3] ⟨none, none⟩ = (3, ⟨none, none⟩) :=
  C3_rate_zero_disabled 5 (by norm_num) [1, 2, 3] ⟨none, none⟩

/-- C4 counterexample: in the initial state (HTTP mode) the code returns
True from try_recover_http_mode, where the claim requires false for every
state other than BROWSER-with-elapsed-recovery-interval. -/
theorem C4_counterexample :
    (tryRecoverHttpMode 0 {}).1 = true := rfl

/-- C4 (amended): try_recover_http_mode returns false exactly when the
authenticator is in BROWSER mode and less than 300 s have passed since
last_failure_time; in BROWSER mode with ≥ 300 s elapsed it switches the
mode to HTTP, zeroes consecutive_failures, allocates a new DPoP signer and
increments mode_switches, returning true; in any non-BROWSER state it
returns true and changes nothing. -/
theorem C4_try_recover (now : ℚ) (s : AuthManagerState) :
    (s.mode = .browser → RECOVERY_INTERVAL ≤ now - s.last_failure_time →
      tryRecoverHttpMode now s
        = (true, { s with
            mode := .http
            consecutive_failures := 0
            dpop_created_at := some now
            mode_switches := s.mode_switches + 1 }))
    ∧ (s.mode = .browser → now - s.last_failure_time < RECOVERY_INTERVAL →
        tryRecoverHttpMode now s = (false, s))
    ∧ (s.mode ≠ .browser → tryRecoverHttpMode now s = (true, s)) := by
  refine ⟨?_, ?_, ?_⟩
  · intro hm ht
    simp [tryRecoverHttpMode, hm, not_lt.mpr ht]
  · intro hm ht
    simp [tryRecoverHttpMode, hm, ht]
  · intro hm
    simp [tryRecoverHttpMode, hm]

/-- Closed instance of the amended C4: recovery fires in BROWSER mode 301 s
after the last failure. -/
theorem C4_try_recover_witness :
    tryRecoverHttpMode 301 { mode := .browser, last_failure_time := 0 }
      = (true, { ({ mode := .browser, last_failure_time := 0 } : AuthManagerState) with
          mode := .http
          consecutive_failures := 0
          dpop_created_at := some 301
          mode_switches := 0 + 1 }) :=
  (C4_try_recover 301 { mode := .browser, last_failure_time := 0 }).1 rfl
    (by norm_num [RECOVERY_INTERVAL])

theorem applyFailures_below_threshold (l : List (Int × ℚ)) :
    ∀ s : AuthManagerState, s.mode = .http →
      s.consecutive_failures + l.length < 3 →
      (applyFailures l s).mode = .http
      ∧ (applyFailures l s).consecutive_failures
          = s.consecutive_failures + l.length := by
  induction l with
  | nil => intro s hm _; exact ⟨hm, by simp [applyFailures]⟩
  | cons x l ih =>
    intro s hm hlen
    have hcf : ¬ (3 ≤ s.consecutive_failures + 1) := by
      simp only [List.length_cons] at hlen; omega
    have hstep : onFailure x.1 x.2 s
        = { s with
            consecutive_failures := s.consecutive_failures + 1
            last_failure_time := x.2
            cooldown_until :=
              if x.1 = 403 then x.2 + COOLDOWN_AFTER_403 else s.cooldown_until } := by
      simp [onFailure, FALLBACK_THRESHOLD, hcf]
    have := ih (onFailure x.1 x.2 s) (by rw [hstep]; exact hm)
      (by
        rw [hstep]
        show s.consecutive_failures + 1 + l.length < 3
        simp only [List.length_cons] at hlen
        omega)
    rw [applyFailures]
    refine ⟨this.1, ?_⟩
    rw [this.2, hstep]
    show s.consecutive_failures + 1 + l.length = s.consecutive_failures + (x :: l).length
    simp only [List.length_cons]
    omega

/-- C5: from the initial authenticator state, fewer than 3 consecutive
on_failure calls leave the mode HTTP, exactly 3 make it BROWSER, and a
single on_success between failures zeroes consecutive_failures so that a
further run of fewer than 3 failures still leaves the mode HTTP. -/
theorem C5_fallback_threshold :
    (∀ l : List (Int × ℚ), l.length < 3 → (applyFailures l {}).mode = .http)
    ∧ (∀ l : List (Int × ℚ), l.length = 3 → (applyFailures l {}).mode = .browser)
    ∧ (∀ l1 l2 : List (Int × ℚ), l1.length < 3 → l2.length < 3 →
        (onSuccess (applyFailures l1 {})).consecutive_failures = 0
        ∧ (applyFailures l2 (onSuccess (applyFailures l1 {}))).mode = .http) := by
  refine ⟨?_, ?_, ?_⟩
  · intro l hl
    exact (applyFailures_below_threshold l {} rfl (by simpa using hl)).1
  · intro l hl
    match l, hl with
    | [x, y, z], _ =>
      have h2 := applyFailures_below_threshold [x, y] {} rfl (by norm_num)
      show (applyFailures [z] (applyFailures [x, y] {})).mode = .browser
      set s2 := applyFailures [x, y] {} with hs2
      have hcf : 3 ≤ s2.consecutive_failures + 1 := by
        rw [h2.2]; norm_num
      simp [applyFailures, onFailure, FALLBACK_THRESHOLD, fallbackToBrowser,
        h2.1, hcf]
  · intro l1 l2 h1 h2
    have ha := applyFailures_below_threshold l1 {} rfl (by simpa using h1)
    have hos : (onSuccess (applyFailures l1 {})).mode = .http := by
      simp [onSuccess, ha.1]
    have hcf0 : (onSuccess (applyFailures l1 {})).consecutive_failures = 0 := by
      simp [onSuccess]
    refine ⟨hcf0, ?_⟩
    exact (applyFailures_below_threshold l2 _ hos (by rw [hcf0]; simpa using h2)).1

/-- Closed instance of C5: two failures stay HTTP, three flip to BROWSER,
and a success after two failures resets the counter so another failure
stays HTTP. -/
theorem C5_fallback_threshold_witness :
    (applyFailures [(500, 1), (500, 2)] {}).mode = .http
    ∧ (applyFailures [(500, 1), (500, 2), (500, 3)] {}).mode = .browser
    ∧ (onSuccess (applyFailures [(500, 1), (500, 2)] {})).consecutive_failures = 0
    ∧ (applyFailures [(429, 4)]
        (onSuccess (applyFailures [(500, 1), (500, 2)] {}))).mode = .http :=
  ⟨C5_fallback_threshold.1 [(500, 1), (500, 2)] (by norm_num),
   C5_fallback_threshold.2.1 [(500, 1), (500, 2), (500, 3)] rfl,
   (C5_fallback_threshold.2.2 [(500, 1), (500, 2)] [(429, 4)]
      (by norm_num) (by norm_num)).1,
   (C5_fallback_threshold.2.2 [(500, 1), (500, 2)] [(429, 4)]
      (by norm_num) (by norm_num)).2⟩

/-- C6 counterexample: starting from a fresh client whose initial Chrome
version is index 0, with every rotation draw yielding index 1, the 50th
call to _do_search already uses the newly drawn fingerprint (the counter
check fires at the start of request 50), while the claim puts the first
rotated request at number 51; calls 1 through 49 use the initial one. -/
theorem C6_counterexample :
    (fpAfterCalls (fun _ => (1, 1)) (initFpState 0 0) 49).chrome_version = 0
    ∧ (fpAfterCalls (fun _ => (1, 1)) (initFpState 0 0) 50).chrome_version = 1 := by
  set_option maxRecDepth 4000 in constructor <;> decide

/-- C6 (amended): the rotation counter advances on every _do_search call,
successful or not, since _maybe_rotate_fingerprint runs before the request
is issued; calls 1 to 49 use the fingerprint drawn at construction, call
50k + r (the 50th, 100th, ... being the rotation points) uses the
(k)-th drawn pair, and the counter equals the call count modulo 50. -/
theorem C6_rotation_every_50_calls (draws : Nat → Nat × Nat) (c a k : Nat) :
    fpAfterCalls draws (initFpState c a) k
      = ⟨k % 50,
         if k < 50 then c else (draws (k / 50 - 1)).1,
         if k < 50 then a else (draws (k / 50 - 1)).2,
         k / 50⟩ := by
  induction k with
  | zero => rfl
  | succ k ih =>
    rw [fpAfterCalls, ih]
    by_cases h : k % 50 = 49
    · have h1 : (k + 1) % 50 = 0 := by omega
      have h2 : (k + 1) / 50 = k / 50 + 1 := by omega
      have h3 : ¬ (k + 1 < 50) := by omega
      have h4 : k / 50 + 1 - 1 = k / 50 := by omega
      simp [maybeRotateFingerprint, FINGERPRINT_ROTATION_INTERVAL, h, h1, h2, h3, h4]
    · have h1 : (k + 1) % 50 = k % 50 + 1 := by omega
      have h2 : (k + 1) / 50 = k / 50 := by omega
      have h3 : (k + 1 < 50) ↔ (k < 50) := by omega
      have h5 : ¬ (50 ≤ k % 50 + 1) := by omega
      simp [maybeRotateFingerprint, FINGERPRINT_ROTATION_INTERVAL, h1, h2, h3, h5]

theorem sapGo_spec (oracle : Nat → SearchOutcome) (resSeq : Nat → MercariSearchResult)
    (e : SearchExc) :
    ∀ (k remaining page : Nat) (acc : List Item) (pages : Nat),
      (∀ i, i < k → oracle (page + i) = .ok (resSeq (page + i))
          ∧ sapContinue (resSeq (page + i)) = true) →
      oracle (page + k) = .exc e →
      k < remaining →
      sapGo oracle acc pages page remaining
        = if e = .retryExc then .ok (acc ++ itemsFrom resSeq page k, pages + k)
          else .error e := by
  intro k
  induction k with
  | zero =>
    intro remaining page acc pages _ hk hrem
    obtain ⟨r, rfl⟩ : ∃ r, remaining = r + 1 := ⟨remaining - 1, by omega⟩
    rw [Nat.add_zero] at hk
    cases e with
    | retryExc => simp [sapGo, hk, itemsFrom]
    | apiExc st msg => simp [sapGo, hk]
    | transportExc msg => simp [sapGo, hk]
  | succ k ih =>
    intro remaining page acc pages h hk hrem
    obtain ⟨r, rfl⟩ : ∃ r, remaining = r + 1 := ⟨remaining - 1, by omega⟩
    have h0 := h 0 (by omega)
    rw [Nat.add_zero] at h0
    have hrec := ih r (page + 1) (acc ++ (resSeq page).items) (pages + 1)
      (fun i hi => by
        have hpi : page + 1 + i = page + (i + 1) := by omega
        rw [hpi]
        exact h (i + 1) (by omega))
      (by
        have hpk : page + 1 + k = page + (k + 1) := by omega
        rw [hpk]
        exact hk)
      (by omega)
    simp only [sapGo, h0.1, h0.2, if_true]
    rw [hrec]
    by_cases he : e = .retryExc
    · subst he
      have hp : pages + 1 + k = pages + (k + 1) := by omega
      simp [itemsFrom, List.append_assoc, hp]
    · simp [he]

/-- C2 counterexample: a MercariAPIError (here a 429) raised by the first
search call propagates out of search_all_pages instead of being swallowed:
the only caught exception type is tenacity RetryError. -/
theorem C2_counterexample :
    searchAllPages (fun _ => .exc (.apiExc 429 "Rate limited by Mercari")) 1
      = .error (.apiExc 429 "Rate limited by Mercari") := rfl

/-- C2 (amended): if the first failing search call inside search_all_pages
raises RetryError, the loop stops and returns the items accumulated over
the completed pages together with their count; any other exception
(the MercariAPIError family, or a transport error re-raised by the retry
wrapper, which is configured with reraise=True) propagates to the caller. -/
theorem C2_retry_only_contained (oracle : Nat → SearchOutcome)
    (resSeq : Nat → MercariSearchResult) (k max_pages : Nat) (e : SearchExc)
    (hok : ∀ i, i < k → oracle i = .ok (resSeq i) ∧ sapContinue (resSeq i) = true)
    (hexc : oracle k = .exc e) (hk : k < max_pages) :
    searchAllPages oracle max_pages
      = if e = .retryExc then .ok (itemsFrom resSeq 0 k, k) else .error e := by
  have := sapGo_spec oracle resSeq e k max_pages 0 [] 0
    (fun i hi => by simpa using hok i hi)
    (by simpa using hexc) hk
  simpa [searchAllPages] using this

/-- Closed instance of the amended C2: one successful page followed by a
500 propagates the 500 out of search_all_pages. -/
theorem C2_retry_only_contained_witness :
    searchAllPages
        (fun i => if i = 0 then
            .ok ⟨[⟨"m1", "t", 100, "", "", .onSale⟩], 1, true, some "tok"⟩
          else .exc (.apiExc 500 "API error: 500")) 3
      = if (SearchExc.apiExc 500 "API error: 500") = .retryExc then
          .ok (itemsFrom
            (fun _ => ⟨[⟨"m1", "t", 100, "", "", .onSale⟩], 1, true, some "tok"⟩) 0 1, 1)
        else .error (.apiExc 500 "API error: 500") :=
  C2_retry_only_contained _ _ 1 3 _
    (fun i hi => by interval_cases i; exact ⟨rfl, rfl⟩)
    rfl (by omega)

/-- C8: acking a popped task with a non-empty task_id removes the matching
entry from the processing list, removes the dedup key ip:ip_id from the
pending set, and deletes the started-hash entry, in one script execution. -/
theorem C8_ack_removes (task : CrawlRequest) (st : QueueState)
    (l1 l2 : List String) (e : String) (t : Int)
    (hid : task.task_id ≠ "")
    (hproc : st.processing = l1 ++ e :: l2)
    (he : entryMatches task.task_id e = true)
    (hl1 : ∀ x ∈ l1, entryMatches task.task_id x = false)
    (_hstart : st.started task.task_id = some t) :
    (ackTask task st).processing = l1 ++ l2
    ∧ (ackTask task st).pending = st.pending.erase ("ip:" ++ pyStr task.ip_id)
    ∧ (ackTask task st).started task.task_id = none
    ∧ ∀ k, k ≠ task.task_id → (ackTask task st).started k = st.started k := by
  have hunfold : ackTask task st
      = (ackTaskScript st task.task_id ("ip:" ++ pyStr task.ip_id)).1 := by
    simp [ackTask, hid]
  rw [hunfold]
  refine ⟨?_, rfl, by simp [ackTaskScript], ?_⟩
  · show st.processing.eraseP (entryMatches task.task_id) = l1 ++ l2
    rw [hproc, List.eraseP_append_right _ (fun x hx => by simp [hl1 x hx]),
      List.eraseP_cons_of_pos (by simp [he])]
  · intro k hk
    simp [ackTaskScript, hk]

/-- Closed instance of C8 at a one-entry processing list. -/
theorem C8_ack_removes_witness :
    (ackTask ⟨7, "kw", "abc", 0, 0, 5, 5⟩
        ⟨["\x7b\"taskId\":\"abc\"\x7d"], {"ip:" ++ pyStr 7},
          fun k => if k = "abc" then some 11 else none⟩).processing = [] ++ []
    ∧ (ackTask ⟨7, "kw", "abc", 0, 0, 5, 5⟩
        ⟨["\x7b\"taskId\":\"abc\"\x7d"], {"ip:" ++ pyStr 7},
          fun k => if k = "abc" then some 11 else none⟩).pending
        = ({"ip:" ++ pyStr 7} : Finset String).erase ("ip:" ++ pyStr 7)
    ∧ (ackTask ⟨7, "kw", "abc", 0, 0, 5, 5⟩
        ⟨["\x7b\"taskId\":\"abc\"\x7d"], {"ip:" ++ pyStr 7},
          fun k => if k = "abc" then some 11 else none⟩).started "abc" = none
    ∧ ∀ k, k ≠ "abc" →
        (ackTask ⟨7, "kw", "abc", 0, 0, 5, 5⟩
          ⟨["\x7b\"taskId\":\"abc\"\x7d"], {"ip:" ++ pyStr 7},
            fun k => if k = "abc" then some 11 else none⟩).started k
          = (if k = "abc" then some 11 else none) :=
  C8_ack_removes ⟨7, "kw", "abc", 0, 0, 5, 5⟩
    ⟨["\x7b\"taskId\":\"abc\"\x7d"], {"ip:" ++ pyStr 7},
      fun k => if k = "abc" then some 11 else none⟩
    [] [] "\x7b\"taskId\":\"abc\"\x7d" 11
    (by decide) rfl (by decide) (fun x hx => absurd hx (List.not_mem_nil x)) rfl

theorem sapGo_setNumFound (status : String) (f : Nat → Option Int)
    (o : Nat → RawOutcome) :
    ∀ (remaining page : Nat) (acc : List Item) (pages : Nat),
      sapGo (oracleOfRaw status (setNumFound f o)) acc pages page remaining
        = sapGo (oracleOfRaw status o) acc pages page remaining := by
  intro remaining
  induction remaining with
  | zero => intros; rfl
  | succ r ih =>
    intro page acc pages
    cases ho : o page with
    | exc e =>
      have h1 : oracleOfRaw status (setNumFound f o) page = .exc e := by
        simp [oracleOfRaw, setNumFound, ho]
      have h2 : oracleOfRaw status o page = .exc e := by simp [oracleOfRaw, ho]
      cases e <;> simp [sapGo, h1, h2]
    | ok d =>
      have h1 : oracleOfRaw status (setNumFound f o) page
          = .ok (parseResponse { d with numFound := f page } status) := by
        simp [oracleOfRaw, setNumFound, ho]
      have h2 : oracleOfRaw status o page = .ok (parseResponse d status) := by
        simp [oracleOfRaw, ho]
      have hitems : (parseResponse { d with numFound := f page } status).items
          = (parseResponse d status).items := rfl
      have hcont : sapContinue (parseResponse { d with numFound := f page } status)
          = sapContinue (parseResponse d status) := rfl
      simp only [sapGo, h1, h2, hitems, hcont]
      by_cases hc : sapContinue (parseResponse d status) = true
      · simp [hc, ih]
      · simp [hc]

theorem crawlBranch_setNumFound (label status : String) (f : Nat → Option Int)
    (o : Nat → RawOutcome) (pages : Int) :
    crawlBranch label status (setNumFound f o) pages
      = crawlBranch label status o pages := by
  unfold crawlBranch
  split
  · rfl
  · rw [show searchAllPages (oracleOfRaw status (setNumFound f o)) pages.toNat
        = searchAllPages (oracleOfRaw status o) pages.toNat from
      sapGo_setNumFound status f o pages.toNat 0 [] 0]

/-- C10: the engine sets total_found to the length of the response's items
list (the concatenation of the two branches' items), and the upstream
meta.numFound value, though parsed into MercariSearchResult.total_count,
never influences the response: replacing every numFound in the raw
responses leaves the crawl result unchanged. -/
theorem C10_total_found_is_length (task : CrawlRequest) (now : Int)
    (o1 o2 : Nat → RawOutcome) :
    (∀ items pages err, crawlItems task o1 o2 = .ok (items, pages, err) →
      (processTaskResponse task now (.crawled items pages err)).total_found
        = ((processTaskResponse task now (.crawled items pages err)).items.length : Int))
    ∧ (∀ f g, crawlItems task (setNumFound f o1) (setNumFound g o2)
        = crawlItems task o1 o2) := by
  constructor
  · intro items pages err _
    rfl
  · intro f g
    unfold crawlItems
    rw [crawlBranch_setNumFound, crawlBranch_setNumFound]

/-- Closed instance of C10 at a concrete task and empty upstream pages. -/
theorem C10_total_found_is_length_witness :
    (processTaskResponse ⟨1, "k", "t", 0, 0, 1, 1⟩ 5 (.crawled [] 2 "")).total_found
      = ((processTaskResponse ⟨1, "k", "t", 0, 0, 1, 1⟩ 5
          (.crawled [] 2 "")).items.length : Int) :=
  (C10_total_found_is_length ⟨1, "k", "t", 0, 0, 1, 1⟩ 5
      (fun _ => .ok ⟨[], none, none⟩) (fun _ => .ok ⟨[], none, none⟩)).1
    [] 2 "" rfl

end Crawler
